import Mathlib

/-!
Shallow embedding of `src/PyTorch/CIFAR10/main.py`: a script that trains a
modified VGG16 or a small fully-connected network on CIFAR10.  Tensors,
autodifferentiation and the optimizer update itself are external library
calls; they are abstracted as opaque parameter states and step functions.
Everything the script itself computes (configuration, flag validation,
data splitting, batch enumeration, accuracy arithmetic, checkpoint
save/load bookkeeping, the epoch loop) is embedded faithfully.
-/

namespace CIFAR10

/-- Hyperparameter configuration fixed in `CNN_CIFAR10.__init__`
(lines 26-38 of main.py).  Device/dtype handling is outside the embedding. -/
structure Config where
  learning_rate : Rat
  drop_rate : Rat
  weight_decay : Rat
  num_epochs : Nat
  batch_size : Nat
  num_workers : Nat
  save_model : Bool
  shuffle : Bool
  pin_memory : Bool
  checkpoint_file : String
deriving DecidableEq, Repr

/-- The literal values assigned in `__init__`. -/
def defaultConfig : Config :=
  { learning_rate := 1/1000
    drop_rate := 0
    weight_decay := 0
    num_epochs := 100000
    batch_size := 64
    num_workers := 0
    save_model := false
    shuffle := true
    pin_memory := true
    checkpoint_file := "checkpoint/CIFAR10_VGG16" }

/-- Python truthiness of `b == 1` for a bool `b`: `True == 1` is `True`,
`False == 1` is `False`. -/
def pyBoolEqOne (b : Bool) : Bool :=
  (if b then 1 else 0) == (1 : Nat)

/-- Line 23 of main.py: `assert (train_CNN or train_FC) == 1`.
Python `or` on two bools is boolean disjunction, so the asserted
condition is `(train_CNN || train_FC) == 1`.  The assertion passes
(configuration validation succeeds) exactly when this is `true`. -/
def configValidation (train_CNN train_FC : Bool) : Bool :=
  pyBoolEqOne (train_CNN || train_FC)

/-- A model: a parameter state (the content of `model.state_dict()`,
abstracted as a value of type `P`) plus the train/eval mode flag toggled
by `model.train()` / `model.eval()`. -/
structure Model (P : Type) where
  params : P
  training : Bool
deriving DecidableEq, Repr

/-- One entry of `optimizer.param_groups`.  Besides the learning rate and
weight decay (which `load_model` overrides), SGD groups carry further
hyperparameters; `momentum` stands for those untouched fields. -/
structure ParamGroup where
  lr : Rat
  weight_decay : Rat
  momentum : Rat
deriving DecidableEq, Repr

/-- An optimizer's `state_dict()`: per-parameter running state (abstracted
as a value of type `S`, e.g. momentum buffers) plus the param groups. -/
structure Optimizer (S : Type) where
  state : S
  param_groups : List ParamGroup
deriving DecidableEq, Repr

/-- `torch.optim.SGD(model.parameters(), lr=self.learning_rate,
weight_decay=self.weight_decay)` as called on line 133: one param group
holding the configuration's learning rate and weight decay. -/
def SGD (cfg : Config) (s : S) : Optimizer S :=
  { state := s
    param_groups := [{ lr := cfg.learning_rate
                       weight_decay := cfg.weight_decay
                       momentum := 0 }] }

/-- The dictionary serialized by `save_checkpoint` (lines 108-116):
`{'state_dict': model.state_dict(), 'epoch': epoch + 1,
'optimizer': optimizer.state_dict()}`. -/
structure Checkpoint (P S : Type) where
  state_dict : P
  epoch : Nat
  optimizer : Optimizer S
deriving DecidableEq, Repr

/-- `save_checkpoint` (lines 108-116): build the save state with the
epoch counter incremented by one, and write it (the `torch.save` call is
the identity on the value in this embedding; the file is overwritten). -/
def save_checkpoint (model : Model P) (optimizer : Optimizer S) (epoch : Nat) :
    Checkpoint P S :=
  { state_dict := model.params
    epoch := epoch + 1
    optimizer := optimizer }

/-- `load_model` (lines 118-128): restore model and optimizer state from
the checkpoint, then set `lr` and `weight_decay` of every param group to
the current configuration's values.  The checkpoint's `epoch` field is
never read.  Returns the updated model and optimizer. -/
def load_model (cfg : Config) (model : Model P) (_optimizer : Optimizer S)
    (checkpoint : Checkpoint P S) : Model P × Optimizer S :=
  let model := { model with params := checkpoint.state_dict }
  let optimizer := checkpoint.optimizer
  let optimizer :=
    { optimizer with
        param_groups := optimizer.param_groups.map fun g =>
          { g with lr := cfg.learning_rate, weight_decay := cfg.weight_decay } }
  (model, optimizer)

/-- `for epoch in range(self.num_epochs)` on line 139: the epoch indices
enumerated by `main`, always starting from 0. -/
def epochIndices (cfg : Config) : List Nat :=
  List.range cfg.num_epochs

/-- Batch enumeration of `torch.utils.data.DataLoader` with the default
`drop_last=False`: consecutive chunks of `batch_size` elements in dataset
order; the last chunk may be shorter.  `batch_size = 0` is rejected by
the library; here it yields no batches. -/
def chunkList (batch_size : Nat) (l : List α) : List (List α) :=
  match l with
  | [] => []
  | a :: as =>
    if _h : batch_size = 0 then []
    else
      (a :: as).take batch_size :: chunkList batch_size ((a :: as).drop batch_size)
termination_by l.length
decreasing_by
  simp only [List.length_drop, List.length_cons]
  omega

/-- Reorder a dataset by a list of indices (the effect of the sampler's
`randperm` when shuffling is on). -/
def applyPerm (perm : List Nat) (data : List α) : List α :=
  perm.filterMap fun i => data[i]?

/-- `DataLoader(dataset, batch_size, shuffle, ...)` batch production:
with `shuffle=True` the dataset is traversed in the pseudo-random order
given by `perm`; with `shuffle=False` in fixed enumeration order.  Either
way the traversal is chunked into batches of `batch_size`. -/
def DataLoaderBatches (batch_size : Nat) (shuffle : Bool) (perm : List Nat)
    (data : List α) : List (List α) :=
  chunkList batch_size (if shuffle then applyPerm perm data else data)

/-- The train loader built on line 64:
`DataLoader(dataset = train_data, batch_size = self.batch_size,
num_workers = self.num_workers)`.  The `shuffle` keyword is not passed,
so the library default `shuffle=False` applies, whatever
`cfg.shuffle` holds. -/
def trainLoaderBatches (cfg : Config) (perm : List Nat) (train_data : List α) :
    List (List α) :=
  DataLoaderBatches cfg.batch_size false perm train_data

/-- `torch.utils.data.random_split(dataset, [l1, l2])` over a dataset of
`n` elements, given the pseudo-random permutation `perm` of its indices:
fails unless `l1 + l2 = n`, otherwise the first subset takes the first
`l1` permuted indices and the second the next `l2`. -/
def random_split (n : Nat) (perm : List Nat) (l1 l2 : Nat) :
    Except String (List Nat × List Nat) :=
  if l1 + l2 = n then
    Except.ok (perm.take l1, (perm.drop l1).take l2)
  else
    Except.error "Sum of input lengths does not equal the length of the input dataset!"

/-- Number of images of the CIFAR10 training source wrapped on line 61. -/
def cifar10TrainSize : Nat := 50000

/-- The split performed in `load_data` (line 61):
`random_split(CIFAR10(train=True), [40000, 10000])`. -/
def load_data_split (perm : List Nat) : Except String (List Nat × List Nat) :=
  random_split cifar10TrainSize perm 40000 10000

/-- A batch as the evaluator and the training loop see it: a list of
(input, true label) pairs; the library guarantees inputs and labels are
aligned by index, which the pairing makes structural. -/
abbrev Batch (ι : Type) := List (ι × Nat)

/-- Total number of samples over all batches of a loader. -/
def numSamples (loader : List (Batch ι)) : Nat :=
  (loader.map List.length).sum

/-- `check_accuracy` (lines 84-106).  `predict` abstracts
`model(x).max(1)` as a function from parameter state and input to the
argmax class.  The model is put in eval mode, matches between predicted
and true labels are counted over all batches, then
`acc = (float(num_correct) / num_samples) * 100.0` is computed — a
`ZeroDivisionError` when no sample was seen — and only after that is the
model put back in training mode and `acc` returned.  The result is the
accuracy (or the error) paired with the model as the call leaves it. -/
def check_accuracy (predict : P → ι → Nat) (model : Model P)
    (loader : List (Batch ι)) : Except String Rat × Model P :=
  let model := { model with training := false }
  let num_correct : Nat :=
    (loader.map fun b => b.countP fun p => predict model.params p.1 == p.2).sum
  let num_samples : Nat := numSamples loader
  if num_samples = 0 then
    (Except.error "ZeroDivisionError: float division by zero", model)
  else
    let acc : Rat := ((num_correct : Rat) / (num_samples : Rat)) * 100
    (Except.ok acc, { model with training := true })

/-- The inner batch loop of `main` (lines 144-167), with the loop state
initialized on lines 141-142 (`num_correct, total_checked = 0, 0`,
`losses = []`) passed explicitly.  For each batch: the forward pass,
loss, `zero_grad`, backpropagation and one optimizer step are the
library's work, abstracted as `trainStep` mapping the parameter state
and the batch to the updated state and the scalar loss; the loss is
appended to `losses`; the running-accuracy counters use the predictions
of the forward pass, i.e. of the parameter state before the step.
The extra final component counts the executed iterations. -/
def batchLoop (predict : P → ι → Nat) (trainStep : P → Batch ι → P × Rat)
    (s : P) (losses : List Rat) (num_correct total_checked iters : Nat) :
    List (Batch ι) → P × List Rat × Nat × Nat × Nat
  | [] => (s, losses, num_correct, total_checked, iters)
  | b :: rest =>
    let step := trainStep s b
    let correct := b.countP fun p => predict s p.1 == p.2
    batchLoop predict trainStep step.1 (losses ++ [step.2])
      (num_correct + correct) (total_checked + b.length) (iters + 1) rest

/-- One iteration of the epoch loop of `main` (lines 139-178): run the
batch loop, then report `sum(losses)/len(losses)` (line 174, a
`ZeroDivisionError` when no batch ran), then `check_accuracy` on the
validation loader (line 176), then the running training accuracy
`float(num_correct)/float(total_checked)` (line 177).  The optional
checkpoint write of lines 170-171 is the pure `save_checkpoint` value
above and cannot fail, so it does not appear in the control flow.
On success the value carries the model as `check_accuracy` left it, the
mean loss, the validation accuracy, the running training accuracy, and
the number of batch iterations executed. -/
def runEpoch (predict : P → ι → Nat) (trainStep : P → Batch ι → P × Rat)
    (model : Model P) (trainBatches valBatches : List (Batch ι)) :
    Except String (Model P × Rat × Rat × Rat × Nat) :=
  let r := batchLoop predict trainStep model.params [] 0 0 0 trainBatches
  let modelEnd : Model P := { model with params := r.1 }
  let losses := r.2.1
  let num_correct := r.2.2.1
  let total_checked := r.2.2.2.1
  let iters := r.2.2.2.2
  if losses.length = 0 then
    Except.error "ZeroDivisionError: division by zero"
  else
    match check_accuracy predict modelEnd valBatches with
    | (Except.error e, _) => Except.error e
    | (Except.ok valAcc, modelAfter) =>
      if total_checked = 0 then
        Except.error "ZeroDivisionError: float division by zero"
      else
        Except.ok (modelAfter, losses.sum / (losses.length : Rat), valAcc,
          (num_correct : Rat) / (total_checked : Rat), iters)

/-! ## Theorems -/

theorem chunkList_cons (B : Nat) (hB : B ≠ 0) (a : α) (as : List α) :
    chunkList B (a :: as)
      = (a :: as).take B :: chunkList B ((a :: as).drop B) := by
  rw [chunkList]
  simp [hB]

/-- Claim C1: the spec claims that selecting both model variants fails
configuration validation.  It does not: Python's `or` on the two booleans
is plain disjunction, so `assert (train_CNN or train_FC) == 1` passes
when both flags are set. -/
theorem configValidation_both_passes : configValidation true true = true := rfl

/-- Claim C1 (amended): configuration validation passes exactly when at
least one of the two flags is set; only the neither-flag configuration
fails the assert. -/
theorem configValidation_eq_or (train_CNN train_FC : Bool) :
    configValidation train_CNN train_FC = (train_CNN || train_FC) := by
  cases train_CNN <;> cases train_FC <;> rfl

/-- Claim C3: saving a checkpoint for a model, the optimizer `main`
builds (`SGD` over the current configuration) and epoch `e`, then
immediately loading it back, restores the model parameters and the
optimizer state exactly, and the epoch counter carried by the checkpoint
is `e + 1`. -/
theorem checkpoint_roundtrip {P S : Type} (cfg : Config) (model : Model P)
    (s : S) (epoch : Nat) (m0 : Model P) (opt0 : Optimizer S) :
    (load_model cfg m0 opt0 (save_checkpoint model (SGD cfg s) epoch)).1.params
        = model.params
    ∧ (load_model cfg m0 opt0 (save_checkpoint model (SGD cfg s) epoch)).2
        = SGD cfg s
    ∧ (save_checkpoint model (SGD cfg s) epoch).epoch = epoch + 1 :=
  ⟨rfl, rfl, rfl⟩

/-- Claim C5: after `load_model`, every param group of the optimizer
carries the current configuration's learning rate and weight decay,
whatever the checkpoint stored. -/
theorem load_model_overrides_hyperparams {P S : Type} (cfg : Config)
    (model : Model P) (opt : Optimizer S) (ckpt : Checkpoint P S)
    (g : ParamGroup) (hg : g ∈ (load_model cfg model opt ckpt).2.param_groups) :
    g.lr = cfg.learning_rate ∧ g.weight_decay = cfg.weight_decay := by
  simp only [load_model, List.mem_map] at hg
  obtain ⟨g0, -, rfl⟩ := hg
  exact ⟨rfl, rfl⟩

theorem load_model_overrides_hyperparams_witness :
    (ParamGroup.mk defaultConfig.learning_rate defaultConfig.weight_decay 3).lr
        = defaultConfig.learning_rate
    ∧ (ParamGroup.mk defaultConfig.learning_rate defaultConfig.weight_decay 3).weight_decay
        = defaultConfig.weight_decay :=
  load_model_overrides_hyperparams defaultConfig
    (⟨(), true⟩ : Model Unit) (⟨(), []⟩ : Optimizer Unit)
    (⟨(), 5, ⟨(), [ParamGroup.mk 5 7 3]⟩⟩ : Checkpoint Unit Unit)
    (ParamGroup.mk defaultConfig.learning_rate defaultConfig.weight_decay 3)
    (by simp [load_model])

/-- Claim C9: `load_model` never reads the checkpoint's epoch field (its
result is unchanged under any value stored there), and the epoch loop of
`main` enumerates `range(num_epochs)`, which starts at 0 whenever it is
non-empty. -/
theorem load_ignores_epoch_loop_starts_at_zero {P S : Type} (cfg : Config)
    (m0 : Model P) (opt0 : Optimizer S) (ckpt : Checkpoint P S) (e e' : Nat) :
    load_model cfg m0 opt0 { ckpt with epoch := e }
        = load_model cfg m0 opt0 { ckpt with epoch := e' }
    ∧ (0 < cfg.num_epochs → (epochIndices cfg).head? = some 0) := by
  refine ⟨rfl, fun h => ?_⟩
  obtain ⟨n, hn⟩ : ∃ n, cfg.num_epochs = n + 1 :=
    ⟨cfg.num_epochs - 1, by omega⟩
  simp [epochIndices, hn, List.range_succ_eq_map]

theorem load_ignores_epoch_witness :
    (load_model { defaultConfig with num_epochs := 5 } (⟨(), true⟩ : Model Unit)
          (⟨(), []⟩ : Optimizer Unit)
          { (⟨(), 0, ⟨(), []⟩⟩ : Checkpoint Unit Unit) with epoch := 3 }
        = load_model { defaultConfig with num_epochs := 5 } (⟨(), true⟩ : Model Unit)
          (⟨(), []⟩ : Optimizer Unit)
          { (⟨(), 0, ⟨(), []⟩⟩ : Checkpoint Unit Unit) with epoch := 17 })
    ∧ 0 < ({ defaultConfig with num_epochs := 5 } : Config).num_epochs
    ∧ (epochIndices { defaultConfig with num_epochs := 5 }).head? = some 0 :=
  ⟨(load_ignores_epoch_loop_starts_at_zero { defaultConfig with num_epochs := 5 }
      ⟨(), true⟩ ⟨(), []⟩ ⟨(), 0, ⟨(), []⟩⟩ 3 17).1,
    by decide,
    (load_ignores_epoch_loop_starts_at_zero { defaultConfig with num_epochs := 5 }
      ⟨(), true⟩ ⟨(), []⟩ ⟨(), 0, ⟨(), []⟩⟩ 3 17).2 (by decide)⟩

/-- Claim C10: with an empty training batch iterator the epoch runs zero
batch iterations and then fails with a division-by-zero error at the
mean-loss report `sum(losses)/len(losses)` (line 174), instead of
completing. -/
theorem empty_train_loader_divzero {P ι : Type} (predict : P → ι → Nat)
    (trainStep : P → Batch ι → P × Rat) (model : Model P)
    (valBatches : List (Batch ι)) :
    runEpoch predict trainStep model [] valBatches
      = Except.error "ZeroDivisionError: division by zero" := rfl

theorem num_correct_le_numSamples {P ι : Type} (predict : P → ι → Nat) (ps : P)
    (loader : List (Batch ι)) :
    (loader.map fun b => b.countP fun p => predict ps p.1 == p.2).sum
      ≤ numSamples loader := by
  unfold numSamples
  induction loader with
  | nil => simp
  | cons b rest ih =>
    simp only [List.map_cons, List.sum_cons]
    exact Nat.add_le_add (List.countP_le_length _) ih

/-- Claim C2: on a loader containing at least one sample, `check_accuracy`
returns a scalar accuracy in [0, 100]; on an empty loader it raises a
division-by-zero error instead of returning a number. -/
theorem check_accuracy_range {P ι : Type} (predict : P → ι → Nat)
    (model : Model P) (loader : List (Batch ι)) :
    (0 < numSamples loader →
      ∃ a, (check_accuracy predict model loader).1 = Except.ok a
        ∧ 0 ≤ a ∧ a ≤ 100)
    ∧ (check_accuracy predict model ([] : List (Batch ι))).1
        = Except.error "ZeroDivisionError: float division by zero" := by
  refine ⟨fun h => ?_, rfl⟩
  have hne : numSamples loader ≠ 0 := h.ne'
  unfold check_accuracy
  rw [if_neg hne]
  set c := (loader.map fun b =>
      b.countP fun p => predict model.params p.1 == p.2).sum with hc
  refine ⟨_, rfl, ?_, ?_⟩
  · positivity
  · have hcs : (c : Rat) ≤ (numSamples loader : Rat) := by
      exact_mod_cast num_correct_le_numSamples predict model.params loader
    have hs : (0 : Rat) < (numSamples loader : Rat) := by exact_mod_cast h
    have h1 : (c : Rat) / (numSamples loader : Rat) ≤ 1 := (div_le_one hs).mpr hcs
    calc (c : Rat) / (numSamples loader : Rat) * 100
        ≤ 1 * 100 := by gcongr
      _ = 100 := by norm_num

theorem check_accuracy_range_witness :
    0 < numSamples [[((0 : Nat), 0), (1, 2)]]
    ∧ ∃ a, (check_accuracy (fun (_s : Nat) (x : Nat) => x) (⟨0, true⟩ : Model Nat)
          [[((0 : Nat), 0), (1, 2)]]).1 = Except.ok a ∧ 0 ≤ a ∧ a ≤ 100 :=
  ⟨by decide,
    (check_accuracy_range (fun (_s : Nat) (x : Nat) => x) (⟨0, true⟩ : Model Nat)
      [[((0 : Nat), 0), (1, 2)]]).1 (by decide)⟩

/-- Claim C8: `check_accuracy` never changes the model parameters, and
whenever it returns an accuracy (rather than raising), the model is back
in training mode. -/
theorem check_accuracy_frame {P ι : Type} (predict : P → ι → Nat)
    (model : Model P) (loader : List (Batch ι)) :
    (check_accuracy predict model loader).2.params = model.params
    ∧ (∀ a, (check_accuracy predict model loader).1 = Except.ok a →
        (check_accuracy predict model loader).2.training = true) := by
  unfold check_accuracy
  by_cases h : numSamples loader = 0
  · simp [h]
  · simp [h]

theorem check_accuracy_frame_witness :
    (check_accuracy (fun (_s : Nat) (x : Nat) => x) (⟨42, true⟩ : Model Nat)
        [[((3 : Nat), 3)]]).2.params = (⟨42, true⟩ : Model Nat).params
    ∧ (check_accuracy (fun (_s : Nat) (x : Nat) => x) (⟨42, true⟩ : Model Nat)
        [[((3 : Nat), 3)]]).2.training = true :=
  ⟨(check_accuracy_frame (fun (_s : Nat) (x : Nat) => x) ⟨42, true⟩ [[((3 : Nat), 3)]]).1,
    (check_accuracy_frame (fun (_s : Nat) (x : Nat) => x) ⟨42, true⟩ [[((3 : Nat), 3)]]).2
      (((1 : Nat) : Rat) / ((1 : Nat) : Rat) * 100) rfl⟩

/-- Claim C4: the spec claims the batch order depends on the shuffle
configuration field.  In the code the `shuffle` keyword is never passed
to the `DataLoader` (line 64), so the train batches are the fixed
in-order chunking of the dataset — identical for the flag enabled or
disabled, and independent of any source of randomness — even though
`__init__` sets `self.shuffle = True`. -/
theorem shuffle_flag_ignored {α : Type} (cfg : Config) (perm perm' : List Nat)
    (data : List α) :
    trainLoaderBatches { cfg with shuffle := true } perm data
        = chunkList cfg.batch_size data
    ∧ trainLoaderBatches { cfg with shuffle := true } perm data
        = trainLoaderBatches { cfg with shuffle := false } perm' data :=
  ⟨rfl, rfl⟩

theorem nodup_of_perm_range {n : Nat} {perm : List Nat}
    (h : perm.Perm (List.range n)) : perm.Nodup :=
  (h.nodup_iff).mpr (List.nodup_range n)

/-- Claim C6: with the training source of 50,000 images and any index
permutation produced by the sampler, `random_split` as called in
`load_data` succeeds and yields a train subset of exactly 40,000 indices
and a validation subset of exactly 10,000, which together are a
permutation of all 50,000 indices and share no index. -/
theorem split_partition (perm : List Nat)
    (hperm : perm.Perm (List.range cifar10TrainSize)) :
    ∃ tr va, load_data_split perm = Except.ok (tr, va)
      ∧ tr.length = 40000 ∧ va.length = 10000
      ∧ (tr ++ va).Perm (List.range cifar10TrainSize)
      ∧ ∀ i ∈ tr, i ∉ va := by
  have hlen : perm.length = 50000 := by
    simpa [cifar10TrainSize] using hperm.length_eq
  have hdrop : (perm.drop 40000).length = 10000 := by
    simp [hlen]
  have hva : (perm.drop 40000).take 10000 = perm.drop 40000 :=
    List.take_of_length_le (le_of_eq hdrop)
  have happ : perm.take 40000 ++ (perm.drop 40000).take 10000 = perm := by
    rw [hva, List.take_append_drop]
  refine ⟨perm.take 40000, (perm.drop 40000).take 10000, ?_, ?_, ?_, ?_, ?_⟩
  · simp [load_data_split, random_split, cifar10TrainSize]
  · simp [hlen]
  · rw [hva]; exact hdrop
  · rw [happ]; exact hperm
  · have hnodup : (perm.take 40000 ++ (perm.drop 40000).take 10000).Nodup := by
      rw [happ]; exact nodup_of_perm_range hperm
    have hdisj := (List.nodup_append.mp hnodup).2.2
    exact fun i hi hi' => hdisj hi hi'

theorem split_partition_witness :
    ∃ tr va, load_data_split (List.range cifar10TrainSize) = Except.ok (tr, va)
      ∧ tr.length = 40000 ∧ va.length = 10000
      ∧ (tr ++ va).Perm (List.range cifar10TrainSize)
      ∧ ∀ i ∈ tr, i ∉ va :=
  split_partition (List.range cifar10TrainSize) (List.Perm.refl _)

theorem chunkList_length {α : Type} (B : Nat) (hB : 0 < B) (l : List α) :
    (chunkList B l).length = (l.length + B - 1) / B := by
  generalize hn : l.length = n
  induction n using Nat.strong_induction_on generalizing l with
  | _ n ih =>
    cases l with
    | nil =>
      simp only [List.length_nil] at hn
      subst hn
      simp only [chunkList, List.length_nil]
      rw [Nat.div_eq_of_lt (by omega)]
    | cons a as =>
      simp only [List.length_cons] at hn
      rw [chunkList_cons B hB.ne', List.length_cons,
        ih ((a :: as).drop B).length (by simp; omega) _ rfl]
      simp only [List.length_drop, List.length_cons]
      rcases le_or_lt (as.length + 1) B with hle | hlt
      · have h1 : as.length + 1 - B = 0 := by omega
        have h4 : (as.length + 1 + B - 1) / B = 1 :=
          Nat.div_eq_of_lt_le (by omega) (by omega)
        rw [h1, Nat.div_eq_of_lt (by omega), ← hn, h4]
      · have h2 : as.length + 1 - B + B - 1 = as.length := by omega
        have h3 : as.length + 1 + B - 1 = as.length + B := by omega
        rw [h2, ← hn, h3, Nat.add_div_right _ hB]

theorem sum_lengths_chunkList {α : Type} (B : Nat) (hB : 0 < B) (l : List α) :
    ((chunkList B l).map List.length).sum = l.length := by
  generalize hn : l.length = n
  induction n using Nat.strong_induction_on generalizing l with
  | _ n ih =>
    cases l with
    | nil => simpa [chunkList] using hn
    | cons a as =>
      simp only [List.length_cons] at hn
      rw [chunkList_cons B hB.ne']
      simp only [List.map_cons, List.sum_cons, List.length_take,
        List.length_drop, List.length_cons]
      rw [ih ((a :: as).drop B).length (by simp; omega) _ rfl]
      simp only [List.length_drop, List.length_cons]
      omega

theorem numSamples_cons (b : Batch ι) (rest : List (Batch ι)) :
    numSamples (b :: rest) = b.length + numSamples rest := by
  simp [numSamples]

theorem batchLoop_count {P ι : Type} (predict : P → ι → Nat)
    (trainStep : P → Batch ι → P × Rat) :
    ∀ (batches : List (Batch ι)) (s : P) (losses : List Rat)
      (num_correct total_checked iters : Nat),
      (batchLoop predict trainStep s losses num_correct total_checked iters
          batches).2.1.length = losses.length + batches.length
      ∧ (batchLoop predict trainStep s losses num_correct total_checked iters
          batches).2.2.2.1 = total_checked + numSamples batches
      ∧ (batchLoop predict trainStep s losses num_correct total_checked iters
          batches).2.2.2.2 = iters + batches.length := by
  intro batches
  induction batches with
  | nil =>
    intro s losses nc tc it
    simp [batchLoop, numSamples]
  | cons b rest ih =>
    intro s losses nc tc it
    simp only [batchLoop]
    obtain ⟨e1, e2, e3⟩ := ih (trainStep s b).1 (losses ++ [(trainStep s b).2])
      (nc + b.countP fun p => predict s p.1 == p.2) (tc + b.length) (it + 1)
    refine ⟨?_, ?_, ?_⟩
    · rw [e1]; simp [List.length_append]; omega
    · rw [e2, numSamples_cons]; omega
    · rw [e3]; simp; omega

theorem check_accuracy_isOk {P ι : Type} (predict : P → ι → Nat) (m : Model P)
    (loader : List (Batch ι)) (h : numSamples loader ≠ 0) :
    ∃ a m', check_accuracy predict m loader = (Except.ok a, m') := by
  simp only [check_accuracy]
  rw [if_neg h]
  exact ⟨_, _, rfl⟩

theorem runEpoch_ok {P ι : Type} (predict : P → ι → Nat)
    (trainStep : P → Batch ι → P × Rat) (model : Model P)
    (batches valBatches : List (Batch ι))
    (h1 : batches ≠ []) (h2 : 0 < numSamples batches)
    (h3 : 0 < numSamples valBatches) :
    ∃ m ml va ta, runEpoch predict trainStep model batches valBatches
        = Except.ok (m, ml, va, ta, batches.length) := by
  obtain ⟨e1, e2, e3⟩ :=
    batchLoop_count predict trainStep batches model.params [] 0 0 0
  simp only [List.length_nil, Nat.zero_add] at e1 e2 e3
  have hlen :
      ¬ (batchLoop predict trainStep model.params [] 0 0 0 batches).2.1.length = 0 := by
    rw [e1]
    exact fun hc => h1 (List.length_eq_zero.mp hc)
  have htc :
      ¬ (batchLoop predict trainStep model.params [] 0 0 0 batches).2.2.2.1 = 0 := by
    rw [e2]; omega
  obtain ⟨a, m', hca⟩ := check_accuracy_isOk predict
    (Model.mk (batchLoop predict trainStep model.params [] 0 0 0 batches).1
      model.training)
    valBatches h3.ne'
  simp only [runEpoch]
  rw [if_neg hlen, hca]
  simp only [if_neg htc, e3]
  exact ⟨m', _, a, _, rfl⟩

/-- Claim C7: for a non-empty training dataset of `N` samples and a
positive batch size `B`, one epoch of the training loop runs exactly
`ceil(N/B) = (N + B - 1) / B` batch iterations over the train loader's
batches and completes without error (given the validation loader the
epoch also evaluates is non-empty). -/
theorem epoch_batch_count {P ι : Type} (predict : P → ι → Nat)
    (trainStep : P → Batch ι → P × Rat) (model : Model P) (cfg : Config)
    (perm : List Nat) (data : List (ι × Nat)) (valBatches : List (Batch ι))
    (hB : 0 < cfg.batch_size) (hN : data ≠ [])
    (hval : 0 < numSamples valBatches) :
    (trainLoaderBatches cfg perm data).length
        = (data.length + cfg.batch_size - 1) / cfg.batch_size
    ∧ ∃ m ml va ta,
        runEpoch predict trainStep model (trainLoaderBatches cfg perm data)
            valBatches
          = Except.ok (m, ml, va, ta,
              (data.length + cfg.batch_size - 1) / cfg.batch_size) := by
  have htrain : trainLoaderBatches cfg perm data
      = chunkList cfg.batch_size data := rfl
  have hlen : (trainLoaderBatches cfg perm data).length
      = (data.length + cfg.batch_size - 1) / cfg.batch_size := by
    rw [htrain]
    exact chunkList_length _ hB data
  refine ⟨hlen, ?_⟩
  have hne : trainLoaderBatches cfg perm data ≠ [] := by
    rw [htrain]
    cases data with
    | nil => exact absurd rfl hN
    | cons a as =>
      rw [chunkList_cons _ hB.ne']
      exact List.cons_ne_nil _ _
  have hsamp : 0 < numSamples (trainLoaderBatches cfg perm data) := by
    rw [htrain]
    unfold numSamples
    rw [sum_lengths_chunkList _ hB]
    exact List.length_pos.mpr hN
  obtain ⟨m, ml, va, ta, h⟩ :=
    runEpoch_ok predict trainStep model (trainLoaderBatches cfg perm data)
      valBatches hne hsamp hval
  rw [hlen] at h
  exact ⟨m, ml, va, ta, h⟩

theorem epoch_batch_count_witness :
    (trainLoaderBatches { defaultConfig with batch_size := 2 } []
        [((0 : Nat), 0), (1, 1), (2, 2), (3, 3)]).length = 2
    ∧ ∃ m ml va ta,
        runEpoch (fun (_s : Nat) (x : Nat) => x)
            (fun (s : Nat) (_b : Batch Nat) => (s, (0 : Rat)))
            (⟨0, true⟩ : Model Nat)
            (trainLoaderBatches { defaultConfig with batch_size := 2 } []
              [((0 : Nat), 0), (1, 1), (2, 2), (3, 3)])
            [[((0 : Nat), 0)]]
          = Except.ok (m, ml, va, ta, 2) := by
  have h := epoch_batch_count (fun (_s : Nat) (x : Nat) => x)
    (fun (s : Nat) (_b : Batch Nat) => (s, (0 : Rat)))
    (⟨0, true⟩ : Model Nat) { defaultConfig with batch_size := 2 } []
    [((0 : Nat), 0), (1, 1), (2, 2), (3, 3)] [[((0 : Nat), 0)]]
    (by decide) (by decide) (by decide)
  simpa using h

end CIFAR10
